import Mathlib

/-!
# Verification of the zenith-image-generator credential-rotation core

Shallow embedding of the credential-rotation / orchestration engine
(`src/apps/web/src/components/flow/ImageNode.tsx`), the home-page generation
hook (`useImageGenerator`), and the history ledger (`historyStore` section of
`src/apps/web/src/lib/api.ts`), together with proofs of the spec's testable
properties about them.

Upstream HTTP calls are modelled by an oracle `Nat → Option String → CallOutcome`
giving the outcome of the n-th call made with a given token (`none` = anonymous
call without an auth header).  Mutable module state (the exhausted-token set,
the localStorage-backed history store) is passed explicitly.
-/

namespace ZImage

/-- Payload of a successful generation, mirroring `ImageDetails` as used by the
rotation loop (`url`, `provider`, `model`, `steps`, `seed`, `duration`). -/
structure ImageDetails where
  url : String
  provider : String
  model : String
  steps : Nat
  seed : Nat
  duration : String
deriving DecidableEq, Repr

/-- Modelled from the spec: the ErrorClassifier (`isQuotaError` from
`src/lib/tokenRotation.ts`, which is not among the provided sources) labels a
failed call; per §4.2 only the `quota` label triggers rotation.  The
classification is carried on the error value, and `isQuota` plays the role of
`isQuotaError err`. -/
structure GenError where
  message : String
  isQuota : Bool
deriving DecidableEq, Repr

/-- Outcome of one upstream call of `generateImageApiSingle`: either resolved
image details or a thrown error. -/
inductive CallOutcome where
  | success (img : ImageDetails)
  | failure (e : GenError)
deriving DecidableEq, Repr

/-- The errors `generateImageWithRotation` can throw: the three literal
`Error` messages of the source plus propagation of an upstream error. -/
inductive RotationError where
  /-- `throw new Error('No API Token')` -/
  | noApiToken
  /-- `throw new Error('All API tokens exhausted. Quota will reset tomorrow.')` -/
  | allTokensExhausted
  /-- `throw new Error('Maximum retry attempts reached')` -/
  | maxAttemptsReached
  /-- a non-quota upstream failure rethrown as-is (`throw err`) -/
  | upstream (e : GenError)
deriving DecidableEq, Repr

/-- Full observable trace of one `generateImageWithRotation` run: its result,
the list of tokens used by the upstream calls in order (`none` = anonymous),
and the final exhausted-token state. -/
structure RunResult where
  outcome : Except RotationError ImageDetails
  calls : List (Option String)
  exhausted : List String
deriving Repr

/-- `const MAX_RETRY_ATTEMPTS = 10` from `ImageNode.tsx`. -/
def MAX_RETRY_ATTEMPTS : Nat := 10

/-- Modelled from the spec: `getNextAvailableToken` lives in
`src/lib/tokenRotation.ts`, which is not among the provided sources.  Per §4.1,
`nextAvailable` returns the first secret in the caller-supplied order whose
credential is not marked exhausted, and `none` if all are exhausted.  The
per-provider exhausted set is the explicit `exhausted` list. -/
def getNextAvailableToken (exhausted : List String) (allTokens : List String) :
    Option String :=
  allTokens.find? (fun t => decide (t ∉ exhausted))

/-- Modelled from the spec: `markTokenExhausted` lives in
`src/lib/tokenRotation.ts`, which is not among the provided sources.  Per §4.1,
`markExhausted` idempotently marks the credential exhausted; exhaustion is
sticky for the run. -/
def markTokenExhausted (exhausted : List String) (t : String) : List String :=
  if t ∈ exhausted then exhausted else t :: exhausted

/-- The `while (attempts < MAX_RETRY_ATTEMPTS)` loop of
`generateImageWithRotation` (`ImageNode.tsx` lines 97–123), with the remaining
attempt budget as fuel (`fuel = MAX_RETRY_ATTEMPTS - attempts`); `n` is the
number of upstream calls already made, indexing the oracle. -/
def rotationLoop (oracle : Nat → Option String → CallOutcome)
    (allTokens : List String) (requiresAuth : Bool) :
    Nat → List String → Nat → RunResult
  | 0, exhausted, _ =>
      ⟨Except.error RotationError.maxAttemptsReached, [], exhausted⟩
  | fuel + 1, exhausted, n =>
      match getNextAvailableToken exhausted allTokens with
      | none =>
          if requiresAuth then
            ⟨Except.error RotationError.allTokensExhausted, [], exhausted⟩
          else
            match oracle n none with
            | CallOutcome.success img => ⟨Except.ok img, [none], exhausted⟩
            | CallOutcome.failure e =>
                ⟨Except.error (RotationError.upstream e), [none], exhausted⟩
      | some t =>
          match oracle n (some t) with
          | CallOutcome.success img => ⟨Except.ok img, [some t], exhausted⟩
          | CallOutcome.failure e =>
              if e.isQuota then
                let r := rotationLoop oracle allTokens requiresAuth fuel
                  (markTokenExhausted exhausted t) (n + 1)
                ⟨r.outcome, some t :: r.calls, r.exhausted⟩
              else
                ⟨Except.error (RotationError.upstream e), [some t], exhausted⟩

/-- `generateImageWithRotation` (`ImageNode.tsx` lines 78–124): the empty-list
fast path, then the rotation loop.  `exhausted₀` is the token-pool state at
the start of the run. -/
def generateImageWithRotation (oracle : Nat → Option String → CallOutcome)
    (allTokens : List String) (requiresAuth : Bool)
    (exhausted₀ : List String) : RunResult :=
  if allTokens.length = 0 then
    if requiresAuth then
      ⟨Except.error RotationError.noApiToken, [], exhausted₀⟩
    else
      match oracle 0 none with
      | CallOutcome.success img => ⟨Except.ok img, [none], exhausted₀⟩
      | CallOutcome.failure e =>
          ⟨Except.error (RotationError.upstream e), [none], exhausted₀⟩
  else
    rotationLoop oracle allTokens requiresAuth MAX_RETRY_ATTEMPTS exhausted₀ 0

/-- Constant all-quota oracle: every upstream call fails with a
quota-classified error (used as concrete input for C1). -/
def qOracle : Nat → Option String → CallOutcome :=
  fun _ _ => CallOutcome.failure ⟨"quota exceeded", true⟩

/-- Constant auth-failure oracle: every upstream call is rejected with a
non-quota (auth-classified) error (used as concrete input for C3). -/
def authOracle : Nat → Option String → CallOutcome :=
  fun _ _ => CallOutcome.failure ⟨"Invalid credentials", false⟩


/-- State relevant to the generate-on-mount effect of `ImageNodeComponent`
(`ImageNode.tsx` lines 148–217): the hydration flag, the node's data
(`imageUrl`, `isLoading`), the `generatingRef` single-flight guard, and a
count of upstream generation attempts started. -/
structure NodeEffectState where
  hasHydrated : Bool
  imageUrl : Option String
  isLoading : Bool
  generating : Bool
  upstreamCalls : Nat
deriving DecidableEq, Repr

/-- One trigger of the `ImageNode` generation effect, up to its first
suspension point: `if (!hasHydrated) return`, `if (imageUrl || !isLoading)
return`, `if (generatingRef.current) return`, `generatingRef.current = true`,
then the async body that performs one upstream generation attempt. -/
def triggerGenerateEffect (s : NodeEffectState) : NodeEffectState :=
  if !s.hasHydrated then s
  else if s.imageUrl.isSome || !s.isLoading then s
  else if s.generating then s
  else { s with generating := true, upstreamCalls := s.upstreamCalls + 1 }

/-- State relevant to re-entry of `handleGenerate` in `useImageGenerator`
(`src/unnamed/part_001` lines 256–272): the provider's `requiresAuth` flag,
the parsed token list, the `loading` flag, and a count of upstream generation
calls started. -/
structure HomeGenState where
  requiresAuth : Bool
  providerTokens : List String
  loading : Bool
  upstreamCalls : Nat
deriving DecidableEq, Repr

/-- One invocation of `handleGenerate` up to its first suspension point: the
empty-token early return, then `setLoading(true)` and the `generateImage`
call.  The source checks the token precondition but never checks `loading`
before starting a new upstream call. -/
def handleGenerateEntry (s : HomeGenState) : HomeGenState :=
  if s.requiresAuth && s.providerTokens.isEmpty then s
  else { s with loading := true, upstreamCalls := s.upstreamCalls + 1 }

/-- Final observable outcome of one `handleGenerate` run in
`useImageGenerator` (`src/unnamed/part_001` lines 274–345). -/
structure HomeRunResult where
  /-- `imageDetails.url` when the run ends with `setImageDetails`, `none`
  when the `catch` branch ran and `imageDetails` stays cleared. -/
  imageUrl : Option String
  /-- whether the run reached the success tail (history saved, success toast). -/
  succeeded : Bool
  /-- whether the non-fatal `'8K upscale failed'` advisory was recorded. -/
  upscaleAdvisory : Bool
  /-- whether `saveToHistory` was invoked. -/
  historySaved : Bool
  /-- the url passed to `saveToHistory`, when invoked. -/
  historyUrl : Option String
deriving DecidableEq, Repr

/-- Embeds the guard `details.url.startsWith('http')` of `handleGenerate`
as a character-list prefix check (equivalent, and computable in the kernel). -/
def startsWithHttp (url : String) : Bool :=
  "http".data.isPrefixOf url.data

/-- The generate → optional-upscale → save pipeline of `handleGenerate`:
`gen` is the outcome of `generateImage` (`Except.ok` with
`result.data.imageDetails?.url`, `Except.error` for a failed response), `up`
the outcome of `upscaleImage` (`Except.ok` with `upResult.data.url`).
A gen failure or missing url throws into the `catch` branch; an upscale
failure or missing url only records the advisory and keeps the original url,
which is then saved to history. -/
def runHomeGenerate (upscale8k : Bool) (gen : Except String (Option String))
    (up : Except String (Option String)) : HomeRunResult :=
  match gen with
  | Except.error _ => ⟨none, false, false, false, none⟩
  | Except.ok none => ⟨none, false, false, false, none⟩
  | Except.ok (some url) =>
      if upscale8k && startsWithHttp url then
        match up with
        | Except.ok (some upUrl) => ⟨some upUrl, true, false, true, some upUrl⟩
        | Except.ok none => ⟨some url, true, true, true, some url⟩
        | Except.error _ => ⟨some url, true, true, true, some url⟩
      else ⟨some url, true, false, true, some url⟩



/-- `export const HISTORY_TTL_MS = 24 * 60 * 60 * 1000` (historyStore). -/
def HISTORY_TTL_MS : Int := 24 * 60 * 60 * 1000

/-- `const MAX_ITEMS = 200` (historyStore). -/
def MAX_ITEMS : Nat := 200

/-- `ImageHistoryItem` of the history store.  `expiresAt` is `Option Int`:
`some` is a numeric `expiresAt`, `none` models a stored entry whose
`expiresAt` is missing or not a number (`typeof i.expiresAt !== 'number'`).
Optional payload strings are `Option String`; timestamps are milliseconds. -/
structure ImageHistoryItem where
  id : String
  url : String
  prompt : String
  negativePrompt : Option String
  providerId : String
  providerName : String
  modelId : String
  modelName : String
  width : Nat
  height : Nat
  steps : Nat
  seed : Nat
  duration : Option String
  timestamp : Int
  expiresAt : Option Int
  source : Option String
deriving DecidableEq, Repr

/-- The validity predicate of `getHistory`, `clearExpiredHistory` and
`getHistoryStats`: `typeof i.expiresAt !== 'number' || i.expiresAt > now`. -/
def isValidAt (now : Int) (i : ImageHistoryItem) : Bool :=
  match i.expiresAt with
  | none => true
  | some e => decide (now < e)

/-- `getHistory()`: parse the store, keep the valid entries, and rewrite the
persisted store without the expired ones when any were dropped.  The persisted
store (`localStorage` under `HISTORY_STORAGE_KEY`) is the explicit `store`
argument; the result is `(returned list, store after the call)`. -/
def getHistory (store : List ImageHistoryItem) (now : Int) :
    List ImageHistoryItem × List ImageHistoryItem :=
  let items := store
  let valid := items.filter (isValidAt now)
  if valid.length ≠ items.length then (valid, valid) else (valid, items)

/-- `getAllHistoryIncludingExpired()`: the raw parsed store, no filtering. -/
def getAllHistoryIncludingExpired (store : List ImageHistoryItem) :
    List ImageHistoryItem :=
  store

/-- The `Omit<ImageHistoryItem, 'id' | 'timestamp' | 'expiresAt'>` argument
of `saveToHistory`. -/
structure HistoryInput where
  url : String
  prompt : String
  negativePrompt : Option String
  providerId : String
  providerName : String
  modelId : String
  modelName : String
  width : Nat
  height : Nat
  steps : Nat
  seed : Nat
  duration : Option String
  source : Option String
deriving DecidableEq, Repr

/-- The entry `saveToHistory` constructs: the input payload plus
`id: generateId()`, `timestamp: now`, `expiresAt: now + HISTORY_TTL_MS`.
The generated id is the explicit `freshId` argument. -/
def mkHistoryEntry (now : Int) (freshId : String) (item : HistoryInput) :
    ImageHistoryItem :=
  { id := freshId, url := item.url, prompt := item.prompt,
    negativePrompt := item.negativePrompt, providerId := item.providerId,
    providerName := item.providerName, modelId := item.modelId,
    modelName := item.modelName, width := item.width, height := item.height,
    steps := item.steps, seed := item.seed, duration := item.duration,
    timestamp := now, expiresAt := some (now + HISTORY_TTL_MS),
    source := item.source }

/-- `saveToHistory(item)`: build the entry, prepend it to `getHistory()`
(which also sweeps), truncate to `MAX_ITEMS`, persist, return the new id.
The result is `(returned id, store after the call)`. -/
def saveToHistory (store : List ImageHistoryItem) (now : Int)
    (freshId : String) (item : HistoryInput) :
    String × List ImageHistoryItem :=
  let entry := mkHistoryEntry now freshId item
  let prev := (getHistory store now).1
  let next := (entry :: prev).take MAX_ITEMS
  (entry.id, next)

/-- `clearExpiredHistory()`: keep the valid entries, persist them, and return
the number of removed entries.  The result is
`(returned count, store after the call)`. -/
def clearExpiredHistory (store : List ImageHistoryItem) (now : Int) :
    Nat × List ImageHistoryItem :=
  let items := store
  let valid := items.filter (isValidAt now)
  (items.length - valid.length, valid)



/-- A concrete history entry expiring at time 1 (witness input). -/
def sampleEntry : ImageHistoryItem :=
  { id := "h1", url := "http://img/1.png", prompt := "a cat",
    negativePrompt := none, providerId := "huggingface",
    providerName := "HuggingFace", modelId := "z-image-turbo",
    modelName := "Z Image Turbo", width := 1024, height := 1024, steps := 9,
    seed := 7, duration := none, timestamp := 0, expiresAt := some 1,
    source := none }

/-- A concrete stored entry whose `expiresAt` is missing / not a number
(witness input). -/
def malformedEntry : ImageHistoryItem :=
  { id := "h0", url := "http://img/0.png", prompt := "a dog",
    negativePrompt := none, providerId := "huggingface",
    providerName := "HuggingFace", modelId := "z-image-turbo",
    modelName := "Z Image Turbo", width := 512, height := 512, steps := 9,
    seed := 3, duration := none, timestamp := 0, expiresAt := none,
    source := none }

/-- A concrete append payload (witness input). -/
def sampleInput : HistoryInput :=
  { url := "http://img/2.png", prompt := "a fox", negativePrompt := none,
    providerId := "huggingface", providerName := "HuggingFace",
    modelId := "z-image-turbo", modelName := "Z Image Turbo", width := 1024,
    height := 1024, steps := 9, seed := 11, duration := none, source := none }


end ZImage

namespace ZImage

/-- C2: for a provider with `requiresAuth = true` and an empty credential
list, `generateImageWithRotation` fails immediately with the
no-credential-configured error (`'No API Token'`) and makes no upstream call
at all. -/
theorem c2_no_credentials_fails_without_call
    (oracle : Nat → Option String → CallOutcome) (exhausted₀ : List String) :
    generateImageWithRotation oracle [] true exhausted₀ =
      ⟨Except.error RotationError.noApiToken, [], exhausted₀⟩ := rfl

/-- `nextAvailable` is the head of the not-yet-exhausted sublist, in the
caller-supplied order. -/
theorem getNextAvailableToken_eq_head?_filter (ex L : List String) :
    getNextAvailableToken ex L =
      (L.filter (fun t => decide (t ∉ ex))).head? := by
  induction L with
  | nil => rfl
  | cons a l ih =>
      unfold getNextAvailableToken at ih ⊢
      by_cases h : a ∈ ex
      · rw [List.find?_cons_of_neg _ (by simpa using h),
          List.filter_cons_of_neg (by simpa using h)]
        exact ih
      · rw [List.find?_cons_of_pos _ (by simpa using h),
          List.filter_cons_of_pos (by simpa using h), List.head?_cons]

/-- Marking the head of the available sublist exhausted removes exactly it
from the available sublist (secrets are pairwise distinct). -/
theorem filter_not_mem_cons_of_head (L ex : List String) (t : String)
    (rest : List String) (hnd : L.Nodup)
    (h : L.filter (fun x => decide (x ∉ ex)) = t :: rest) :
    L.filter (fun x => decide (x ∉ t :: ex)) = rest := by
  have hnr : (t :: rest).Nodup := h ▸ List.Nodup.filter _ hnd
  have htr : t ∉ rest := (List.nodup_cons.mp hnr).1
  calc L.filter (fun x => decide (x ∉ t :: ex))
      = L.filter (fun x => decide (x ≠ t) && decide (x ∉ ex)) := by
        refine List.filter_congr (fun x _ => ?_)
        by_cases h1 : x = t <;> by_cases h2 : x ∈ ex <;> simp [h1, h2]
    _ = (L.filter (fun x => decide (x ∉ ex))).filter (fun x => decide (x ≠ t)) :=
        (List.filter_filter _ L).symm
    _ = (t :: rest).filter (fun x => decide (x ≠ t)) := by rw [h]
    _ = rest.filter (fun x => decide (x ≠ t)) := by
        rw [List.filter_cons_of_neg (by simp)]
    _ = rest := List.filter_eq_self.mpr (fun x hx => by
        simp only [decide_eq_true_eq]
        exact fun hxt => htr (hxt ▸ hx))

/-- One-step unfolding of the rotation loop at positive fuel. -/
theorem rotationLoop_succ (oracle : Nat → Option String → CallOutcome)
    (L : List String) (ra : Bool) (fuel : Nat) (ex : List String) (n : Nat) :
    rotationLoop oracle L ra (fuel + 1) ex n =
      match getNextAvailableToken ex L with
      | none =>
          if ra then
            ⟨Except.error RotationError.allTokensExhausted, [], ex⟩
          else
            match oracle n none with
            | CallOutcome.success img => ⟨Except.ok img, [none], ex⟩
            | CallOutcome.failure e =>
                ⟨Except.error (RotationError.upstream e), [none], ex⟩
      | some t =>
          match oracle n (some t) with
          | CallOutcome.success img => ⟨Except.ok img, [some t], ex⟩
          | CallOutcome.failure e =>
              if e.isQuota then
                let r := rotationLoop oracle L ra fuel
                  (markTokenExhausted ex t) (n + 1)
                ⟨r.outcome, some t :: r.calls, r.exhausted⟩
              else
                ⟨Except.error (RotationError.upstream e), [some t], ex⟩ := rfl

/-- When every upstream call quota-fails and the pool holds pairwise-distinct
secrets, the loop visits the available secrets in order until the pool or the
fuel runs out: it calls and exhausts exactly `min |avail| fuel` secrets, and
ends with `AllTokensExhausted` when the pool empties strictly inside the
budget, `MaxAttemptsReached` otherwise. -/
theorem rotationLoop_all_quota (oracle : Nat → Option String → CallOutcome)
    (L : List String) (hnd : L.Nodup)
    (hq : ∀ n τ, ∃ e, oracle n τ = CallOutcome.failure e ∧ e.isQuota = true) :
    ∀ (fuel : Nat) (ex : List String) (n : Nat),
      rotationLoop oracle L true fuel ex n =
        ⟨Except.error
            (if (L.filter (fun t => decide (t ∉ ex))).length < fuel
              then RotationError.allTokensExhausted
              else RotationError.maxAttemptsReached),
          ((L.filter (fun t => decide (t ∉ ex))).take fuel).map some,
          ((L.filter (fun t => decide (t ∉ ex))).take fuel).reverse ++ ex⟩ := by
  intro fuel
  induction fuel with
  | zero => intro ex n; simp [rotationLoop]
  | succ f ih =>
      intro ex n
      rw [rotationLoop_succ, getNextAvailableToken_eq_head?_filter]
      cases havail : L.filter (fun t => decide (t ∉ ex)) with
      | nil => simp
      | cons t rest =>
          obtain ⟨e, he, hqe⟩ := hq n (some t)
          have ht : t ∉ ex := by
            have hmem : t ∈ L.filter (fun t => decide (t ∉ ex)) := by
              rw [havail]; exact List.mem_cons_self t rest
            simpa using (List.mem_filter.mp hmem).2
          have hmark : markTokenExhausted ex t = t :: ex := by
            simp [markTokenExhausted, ht]
          have hrest : L.filter (fun x => decide (x ∉ t :: ex)) = rest :=
            filter_not_mem_cons_of_head L ex t rest hnd havail
          rw [List.head?_cons]
          simp only [he, hqe, if_true]
          rw [hmark, ih (t :: ex) (n + 1), hrest]
          simp [List.take_succ_cons, List.reverse_cons, List.append_assoc,
            Nat.succ_lt_succ_iff]

/-- C1 (amended): for a non-empty list of `N` pairwise-distinct secrets with
`requiresAuth = true` and every upstream call quota-classified, the run makes
exactly `min N MAX_RETRY_ATTEMPTS` upstream calls (the first
`MAX_RETRY_ATTEMPTS` secrets, in order, never anonymously), marks exactly the
tried secrets exhausted, never succeeds, and fails with the
all-tokens-exhausted error when `N < MAX_RETRY_ATTEMPTS` and the
max-attempts-reached error otherwise. -/
theorem c1_all_quota_exhausts_pool (oracle : Nat → Option String → CallOutcome)
    (L : List String) (hne : L ≠ []) (hnd : L.Nodup)
    (hq : ∀ n τ, ∃ e, oracle n τ = CallOutcome.failure e ∧ e.isQuota = true) :
    (generateImageWithRotation oracle L true []).calls.length =
      min L.length MAX_RETRY_ATTEMPTS ∧
    (generateImageWithRotation oracle L true []).calls =
      (L.take MAX_RETRY_ATTEMPTS).map some ∧
    (∀ t, t ∈ (generateImageWithRotation oracle L true []).exhausted ↔
      some t ∈ (generateImageWithRotation oracle L true []).calls) ∧
    (generateImageWithRotation oracle L true []).outcome =
      Except.error (if L.length < MAX_RETRY_ATTEMPTS
        then RotationError.allTokensExhausted
        else RotationError.maxAttemptsReached) ∧
    ∀ img, (generateImageWithRotation oracle L true []).outcome ≠
      Except.ok img := by
  have hlen : ¬ L.length = 0 := by simpa using hne
  have hfL : L.filter (fun t => decide (t ∉ ([] : List String))) = L :=
    List.filter_eq_self.mpr (fun a _ => by simp)
  have hrun : generateImageWithRotation oracle L true [] =
      ⟨Except.error
          (if L.length < MAX_RETRY_ATTEMPTS
            then RotationError.allTokensExhausted
            else RotationError.maxAttemptsReached),
        (L.take MAX_RETRY_ATTEMPTS).map some,
        (L.take MAX_RETRY_ATTEMPTS).reverse ++ []⟩ := by
    unfold generateImageWithRotation
    rw [if_neg hlen, rotationLoop_all_quota oracle L hnd hq, hfL]
  rw [hrun]
  refine ⟨?_, rfl, ?_, rfl, ?_⟩
  · simp [List.length_take, Nat.min_comm]
  · intro t
    constructor
    · intro h
      simp only [List.append_nil, List.mem_reverse] at h
      exact List.mem_map_of_mem some h
    · intro h
      simp only [List.mem_map, Option.some.injEq] at h
      obtain ⟨a, ha, hat⟩ := h
      simp only [List.append_nil, List.mem_reverse]
      exact hat ▸ ha
  · intro img
    simp

/-- C1 witness: the spec's own scenario — credentials `["t1","t2"]`, both
quota-fail, `requiresAuth = true`, budget 10 — makes exactly `min 2 10 = 2`
calls and fails with the all-tokens-exhausted error. -/
theorem c1_all_quota_exhausts_pool_witness :
    ((["t1", "t2"] : List String) ≠ [] ∧ (["t1", "t2"] : List String).Nodup ∧
      ∀ n τ, ∃ e, qOracle n τ = CallOutcome.failure e ∧ e.isQuota = true) ∧
    (generateImageWithRotation qOracle ["t1", "t2"] true []).calls.length =
      min (["t1", "t2"] : List String).length MAX_RETRY_ATTEMPTS ∧
    (generateImageWithRotation qOracle ["t1", "t2"] true []).outcome =
      Except.error (if (["t1", "t2"] : List String).length < MAX_RETRY_ATTEMPTS
        then RotationError.allTokensExhausted
        else RotationError.maxAttemptsReached) ∧
    (∀ t, t ∈ (generateImageWithRotation qOracle ["t1", "t2"] true []).exhausted ↔
      some t ∈ (generateImageWithRotation qOracle ["t1", "t2"] true []).calls) :=
  have hq : ∀ n τ, ∃ e, qOracle n τ = CallOutcome.failure e ∧ e.isQuota = true :=
    fun _ _ => ⟨⟨"quota exceeded", true⟩, rfl, rfl⟩
  ⟨⟨by decide, by decide, hq⟩,
    (c1_all_quota_exhausts_pool qOracle ["t1", "t2"] (by decide) (by decide) hq).1,
    (c1_all_quota_exhausts_pool qOracle ["t1", "t2"] (by decide) (by decide) hq).2.2.2.1,
    (c1_all_quota_exhausts_pool qOracle ["t1", "t2"] (by decide) (by decide) hq).2.2.1⟩

/-- C1 counterexample: the claim quantifies over every non-empty credential
list, but on the duplicate list `["t1", "t1"]` (length `N = 2`, all calls
quota-classified, `requiresAuth = true`) the source's pool is keyed by the
secret string, so the single call that exhausts `"t1"` empties the pool and
the run makes 1 upstream call, not `min 2 10 = 2`. -/
theorem c1_counterexample :
    (generateImageWithRotation qOracle ["t1", "t1"] true []).calls.length = 1 ∧
    (generateImageWithRotation qOracle ["t1", "t1"] true []).calls.length ≠
      min (["t1", "t1"] : List String).length MAX_RETRY_ATTEMPTS := by
  constructor
  · rfl
  · decide

/-- Trace invariant of the loop: if the `i`-th call made from loop entry (with
`n` calls already made before entry) fails with a non-quota-classified error,
that call is the last one the loop makes, and the loop rethrows that very
error. -/
theorem rotationLoop_nonquota_terminates
    (oracle : Nat → Option String → CallOutcome) (L : List String) (ra : Bool) :
    ∀ (fuel : Nat) (ex : List String) (n i : Nat) (τ : Option String)
      (e : GenError),
      (rotationLoop oracle L ra fuel ex n).calls[i]? = some τ →
      oracle (n + i) τ = CallOutcome.failure e →
      e.isQuota = false →
      i + 1 = (rotationLoop oracle L ra fuel ex n).calls.length ∧
      (rotationLoop oracle L ra fuel ex n).outcome =
        Except.error (RotationError.upstream e) := by
  intro fuel
  induction fuel with
  | zero => intro ex n i τ e hcall _ _; simp [rotationLoop] at hcall
  | succ f ih =>
      intro ex n i τ e hcall hout hnq
      rw [rotationLoop_succ] at hcall ⊢
      cases hgna : getNextAvailableToken ex L with
      | none =>
          cases hra : ra with
          | true => simp [hgna, hra] at hcall
          | false =>
              cases ho : oracle n none with
              | success img =>
                  rcases i with _ | j
                  · simp [hgna, hra, ho] at hcall
                    subst hcall
                    rw [Nat.add_zero, ho] at hout
                    exact absurd hout (by simp)
                  · simp [hgna, hra, ho] at hcall
              | failure e' =>
                  rcases i with _ | j
                  · simp [hgna, hra, ho] at hcall
                    subst hcall
                    rw [Nat.add_zero, ho] at hout
                    obtain rfl : e' = e := by simpa using hout
                    refine ⟨?_, ?_⟩ <;> simp [hgna, hra, ho]
                  · simp [hgna, hra, ho] at hcall
      | some t =>
          cases ho : oracle n (some t) with
          | success img =>
              rcases i with _ | j
              · simp [hgna, ho] at hcall
                subst hcall
                rw [Nat.add_zero, ho] at hout
                exact absurd hout (by simp)
              · simp [hgna, ho] at hcall
          | failure e' =>
              cases hqe : e'.isQuota with
              | true =>
                  rcases i with _ | j
                  · simp [hgna, ho, hqe] at hcall
                    subst hcall
                    rw [Nat.add_zero, ho] at hout
                    obtain rfl : e' = e := by simpa using hout
                    rw [hnq] at hqe
                    exact absurd hqe (by simp)
                  · have hcall' : (rotationLoop oracle L ra f
                        (markTokenExhausted ex t) (n + 1)).calls[j]? = some τ := by
                      simpa [hgna, ho, hqe] using hcall
                    have hout' : oracle ((n + 1) + j) τ = CallOutcome.failure e := by
                      have hnj : n + (j + 1) = (n + 1) + j := by omega
                      rw [← hnj]; exact hout
                    obtain ⟨h1, h2⟩ := ih (markTokenExhausted ex t) (n + 1) j τ e
                      hcall' hout' hnq
                    refine ⟨?_, ?_⟩
                    · simp [ho, hqe]
                      omega
                    · simp [ho, hqe]
                      exact h2
              | false =>
                  rcases i with _ | j
                  · simp [hgna, ho, hqe] at hcall
                    subst hcall
                    rw [Nat.add_zero, ho] at hout
                    obtain rfl : e' = e := by simpa using hout
                    refine ⟨?_, ?_⟩ <;> simp [ho, hqe]
                  · simp [hgna, ho, hqe] at hcall

/-- C3: a non-quota-classified failure (in particular an `auth` rejection)
never triggers another attempt with a different secret: the failing call —
whether it carried a secret or was the single anonymous fallback call — is the
run's last upstream call, and the run fails immediately, propagating that very
error unchanged. -/
theorem c3_nonquota_failure_is_final
    (oracle : Nat → Option String → CallOutcome) (L : List String) (ra : Bool)
    (ex₀ : List String) (i : Nat) (τ : Option String) (e : GenError)
    (hcall : (generateImageWithRotation oracle L ra ex₀).calls[i]? = some τ)
    (hout : oracle i τ = CallOutcome.failure e)
    (hnq : e.isQuota = false) :
    i + 1 = (generateImageWithRotation oracle L ra ex₀).calls.length ∧
    (generateImageWithRotation oracle L ra ex₀).outcome =
      Except.error (RotationError.upstream e) := by
  unfold generateImageWithRotation at hcall ⊢
  by_cases hlen : L.length = 0
  · rw [if_pos hlen] at hcall ⊢
    cases hra : ra with
    | true => simp [hra] at hcall
    | false =>
        cases ho : oracle 0 none with
        | success img =>
            rcases i with _ | j
            · simp [hra, ho] at hcall
              subst hcall
              rw [ho] at hout
              exact absurd hout (by simp)
            · simp [hra, ho] at hcall
        | failure e' =>
            rcases i with _ | j
            · simp [hra, ho] at hcall
              subst hcall
              rw [ho] at hout
              obtain rfl : e' = e := by simpa using hout
              refine ⟨?_, ?_⟩ <;> simp [hra, ho]
            · simp [hra, ho] at hcall
  · rw [if_neg hlen] at hcall ⊢
    have hout' : oracle (0 + i) τ = CallOutcome.failure e := by
      rwa [Nat.zero_add]
    exact rotationLoop_nonquota_terminates oracle L ra MAX_RETRY_ATTEMPTS ex₀ 0
      i τ e hcall hout' hnq

/-- C3 witness: one configured secret `"t1"`, its call rejected as an auth
error — the run stops after that single call and propagates the error. -/
theorem c3_nonquota_failure_is_final_witness :
    ((generateImageWithRotation authOracle ["t1"] true []).calls[0]? =
        some (some "t1") ∧
      authOracle 0 (some "t1") =
        CallOutcome.failure ⟨"Invalid credentials", false⟩ ∧
      (GenError.mk "Invalid credentials" false).isQuota = false) ∧
    0 + 1 = (generateImageWithRotation authOracle ["t1"] true []).calls.length ∧
    (generateImageWithRotation authOracle ["t1"] true []).outcome =
      Except.error (RotationError.upstream ⟨"Invalid credentials", false⟩) :=
  ⟨⟨rfl, rfl, rfl⟩,
    c3_nonquota_failure_is_final authOracle ["t1"] true [] 0 (some "t1")
      ⟨"Invalid credentials", false⟩ rfl rfl rfl⟩

/-- C9: for a provider with `requiresAuth = false` and an empty credential
list, exactly one anonymous upstream call (token `none`) is made, and its
outcome — success or thrown error — is returned unchanged, with no retries
and no rotation. -/
theorem c9_anonymous_single_call
    (oracle : Nat → Option String → CallOutcome) (exhausted₀ : List String) :
    generateImageWithRotation oracle [] false exhausted₀ =
      ⟨match oracle 0 none with
        | CallOutcome.success img => Except.ok img
        | CallOutcome.failure e => Except.error (RotationError.upstream e),
       [none], exhausted₀⟩ := by
  unfold generateImageWithRotation
  cases oracle 0 none <;> rfl

/-- C4 (amended): the flow-canvas `ImageNode` effect is single-flight — for a
unit that is hydrated and pending (`imageUrl` unset, `isLoading` set), two
triggers in rapid succession start at most one upstream call beyond those
already counted, and exactly one when no attempt was in flight; the home-page
`handleGenerate` hook has no such guard (see the counterexample). -/
theorem c4_image_node_single_flight (s : NodeEffectState)
    (hh : s.hasHydrated = true) (hu : s.imageUrl = none)
    (hl : s.isLoading = true) :
    (triggerGenerateEffect (triggerGenerateEffect s)).upstreamCalls ≤
      s.upstreamCalls + 1 ∧
    (s.generating = false →
      (triggerGenerateEffect (triggerGenerateEffect s)).upstreamCalls =
        s.upstreamCalls + 1) := by
  cases hg : s.generating with
  | true =>
      constructor
      · simp [triggerGenerateEffect, hh, hu, hl, hg]
      · intro h
        exact absurd h (by simp)
  | false =>
      constructor <;>
        simp [triggerGenerateEffect, hh, hu, hl, hg]

/-- C4 witness: a hydrated pending node with no attempt in flight,
triggered twice, performs exactly one upstream call. -/
theorem c4_image_node_single_flight_witness :
    ((NodeEffectState.mk true none true false 0).hasHydrated = true ∧
      (NodeEffectState.mk true none true false 0).imageUrl = none ∧
      (NodeEffectState.mk true none true false 0).isLoading = true) ∧
    (triggerGenerateEffect (triggerGenerateEffect
        (NodeEffectState.mk true none true false 0))).upstreamCalls ≤
      (NodeEffectState.mk true none true false 0).upstreamCalls + 1 ∧
    ((NodeEffectState.mk true none true false 0).generating = false →
      (triggerGenerateEffect (triggerGenerateEffect
          (NodeEffectState.mk true none true false 0))).upstreamCalls =
        (NodeEffectState.mk true none true false 0).upstreamCalls + 1) :=
  ⟨⟨rfl, rfl, rfl⟩,
    c4_image_node_single_flight (NodeEffectState.mk true none true false 0)
      rfl rfl rfl⟩

/-- C4 counterexample: the home-page `handleGenerate` (`src/unnamed/part_001`)
never checks `loading` before starting a call, so triggering it twice in rapid
succession — the second trigger arriving while the unit is already Pending
(`loading = true` after the first) — starts two upstream calls, not one. -/
theorem c4_counterexample :
    (handleGenerateEntry (HomeGenState.mk false [] false 0)).loading = true ∧
    (handleGenerateEntry (handleGenerateEntry
        (HomeGenState.mk false [] false 0))).upstreamCalls = 2 ∧
    (handleGenerateEntry (handleGenerateEntry
        (HomeGenState.mk false [] false 0))).upstreamCalls ≠ 1 := by
  refine ⟨rfl, rfl, ?_⟩
  decide

/-- C5: when the primary generation succeeds with an http url, `upscale8k` is
on and the chained upscale call fails, the run still ends successfully with
the original (non-upscaled) url, records the non-fatal upscale advisory, and
still appends the history entry with the original url — it never takes the
failure path. -/
theorem c5_upscale_failure_keeps_success (url msg : String)
    (hhttp : startsWithHttp url = true) :
    runHomeGenerate true (Except.ok (some url)) (Except.error msg) =
      ⟨some url, true, true, true, some url⟩ := by
  simp [runHomeGenerate, hhttp]

/-- C5 witness: a concrete successful generation whose 4x upscale call errors
out still succeeds with the original url and a saved history entry. -/
theorem c5_upscale_failure_keeps_success_witness :
    (startsWithHttp "http://img/1.png" = true) ∧
    runHomeGenerate true (Except.ok (some "http://img/1.png"))
        (Except.error "Network error") =
      ⟨some "http://img/1.png", true, true, true, some "http://img/1.png"⟩ :=
  ⟨by decide, c5_upscale_failure_keeps_success "http://img/1.png" "Network error"
    (by decide)⟩

/-- Both branches of `getHistory` return the valid sublist. -/
theorem getHistory_fst (store : List ImageHistoryItem) (now : Int) :
    (getHistory store now).1 = store.filter (isValidAt now) := by
  unfold getHistory
  by_cases h : (store.filter (isValidAt now)).length ≠ store.length <;>
    simp [h]

/-- A freshly appended entry is valid at its own creation time (the TTL is
positive). -/
theorem isValidAt_mkHistoryEntry (now : Int) (freshId : String)
    (item : HistoryInput) :
    isValidAt now (mkHistoryEntry now freshId item) = true := by
  simp only [isValidAt, mkHistoryEntry, HISTORY_TTL_MS, decide_eq_true_eq]
  omega

/-- C6: `saveToHistory` returns the fresh id; the new entry carries
`timestamp = now` and `expiresAt = timestamp + HISTORY_TTL_MS` exactly, with
`HISTORY_TTL_MS` the fixed 24-hour TTL; the entry is prepended, so it heads
the persisted store and heads the list an immediately following `getHistory`
returns. -/
theorem c6_append_then_list_first (store : List ImageHistoryItem) (now : Int)
    (freshId : String) (item : HistoryInput) :
    (saveToHistory store now freshId item).1 = freshId ∧
    (mkHistoryEntry now freshId item).timestamp = now ∧
    (mkHistoryEntry now freshId item).expiresAt =
      some ((mkHistoryEntry now freshId item).timestamp + HISTORY_TTL_MS) ∧
    HISTORY_TTL_MS = 24 * 60 * 60 * 1000 ∧
    (saveToHistory store now freshId item).2.head? =
      some (mkHistoryEntry now freshId item) ∧
    (getHistory (saveToHistory store now freshId item).2 now).1.head? =
      some (mkHistoryEntry now freshId item) := by
  have hnext : (saveToHistory store now freshId item).2 =
      mkHistoryEntry now freshId item ::
        (getHistory store now).1.take 199 := by
    show (mkHistoryEntry now freshId item :: (getHistory store now).1).take
        MAX_ITEMS = _
    rw [show MAX_ITEMS = 199 + 1 from rfl, List.take_succ_cons]
  refine ⟨rfl, rfl, rfl, rfl, ?_, ?_⟩
  · rw [hnext, List.head?_cons]
  · rw [hnext, getHistory_fst,
      List.filter_cons_of_pos (isValidAt_mkHistoryEntry now freshId item),
      List.head?_cons]

/-- C7: an entry whose numeric `expiresAt` has passed (`expiresAt ≤ now`) is
excluded from the list `getHistory` returns, and the store `getHistory`
persists — what a subsequent raw read returns — excludes it as well. -/
theorem c7_expired_entry_swept (store : List ImageHistoryItem) (now e : Int)
    (entry : ImageHistoryItem) (hmem : entry ∈ store)
    (hexp : entry.expiresAt = some e) (hpast : e ≤ now) :
    entry ∉ (getHistory store now).1 ∧
    entry ∉ getAllHistoryIncludingExpired (getHistory store now).2 := by
  have hinv : isValidAt now entry = false := by
    simp only [isValidAt, hexp, decide_eq_false_iff_not]
    omega
  have h1 : entry ∉ store.filter (isValidAt now) := by
    intro hmemf
    have h2 := (List.mem_filter.mp hmemf).2
    rw [hinv] at h2
    exact absurd h2 (by simp)
  have hne : (store.filter (isValidAt now)).length ≠ store.length :=
    Nat.ne_of_lt (List.length_filter_lt_length_iff_exists.mpr
      ⟨entry, hmem, by simp [hinv]⟩)
  refine ⟨by rw [getHistory_fst]; exact h1, ?_⟩
  have hsnd : (getHistory store now).2 = store.filter (isValidAt now) := by
    simp [getHistory, hne]
  show entry ∉ (getHistory store now).2
  rw [hsnd]
  exact h1

/-- C7 witness: `sampleEntry` expires at 1; listed at time 5 it is gone from
the returned list and from the persisted store. -/
theorem c7_expired_entry_swept_witness :
    (sampleEntry ∈ [sampleEntry] ∧ sampleEntry.expiresAt = some 1 ∧
      (1 : Int) ≤ 5) ∧
    sampleEntry ∉ (getHistory [sampleEntry] 5).1 ∧
    sampleEntry ∉ getAllHistoryIncludingExpired (getHistory [sampleEntry] 5).2 :=
  ⟨⟨List.mem_singleton.mpr rfl, rfl, by decide⟩,
    c7_expired_entry_swept [sampleEntry] 5 1 sampleEntry
      (List.mem_singleton.mpr rfl) rfl (by decide)⟩

/-- C8: when exactly `MAX_ITEMS` entries are retained, appending one more
keeps the count at `MAX_ITEMS`: the new entry is prepended and the oldest
(last) retained entry is dropped. -/
theorem c8_cap_at_max_items (store : List ImageHistoryItem) (now : Int)
    (freshId : String) (item : HistoryInput)
    (hfull : (getHistory store now).1.length = MAX_ITEMS) :
    (saveToHistory store now freshId item).2.length = MAX_ITEMS ∧
    (saveToHistory store now freshId item).2 =
      mkHistoryEntry now freshId item :: (getHistory store now).1.dropLast := by
  have htake : (saveToHistory store now freshId item).2 =
      mkHistoryEntry now freshId item ::
        (getHistory store now).1.take 199 := by
    show (mkHistoryEntry now freshId item :: (getHistory store now).1).take
        MAX_ITEMS = _
    rw [show MAX_ITEMS = 199 + 1 from rfl, List.take_succ_cons]
  have hdrop : (getHistory store now).1.dropLast =
      (getHistory store now).1.take 199 := by
    rw [List.dropLast_eq_take, hfull]
    rfl
  constructor
  · rw [htake, List.length_cons, List.length_take, hfull]
    decide
  · rw [htake, hdrop]

/-- C8 witness: a store of 200 still-valid entries; appending a 201st keeps
exactly 200, dropping the oldest. -/
theorem c8_cap_at_max_items_witness :
    (getHistory (List.replicate MAX_ITEMS sampleEntry) 0).1.length =
      MAX_ITEMS ∧
    (saveToHistory (List.replicate MAX_ITEMS sampleEntry) 0 "h201"
        sampleInput).2.length = MAX_ITEMS ∧
    (saveToHistory (List.replicate MAX_ITEMS sampleEntry) 0 "h201"
        sampleInput).2 =
      mkHistoryEntry 0 "h201" sampleInput ::
        (getHistory (List.replicate MAX_ITEMS sampleEntry) 0).1.dropLast :=
  have hfull : (getHistory (List.replicate MAX_ITEMS sampleEntry) 0).1.length =
      MAX_ITEMS := by
    rw [getHistory_fst,
      List.filter_eq_self.mpr
        (fun x hx => by rw [List.eq_of_mem_replicate hx]; rfl),
      List.length_replicate]
  ⟨hfull,
    (c8_cap_at_max_items (List.replicate MAX_ITEMS sampleEntry) 0 "h201"
      sampleInput hfull).1,
    (c8_cap_at_max_items (List.replicate MAX_ITEMS sampleEntry) 0 "h201"
      sampleInput hfull).2⟩

/-- C10: a stored entry whose `expiresAt` is missing or not a number is
treated as never expiring — for every clock value, `getHistory` returns it,
the store `getHistory` persists keeps it, and `clearExpiredHistory` keeps it
too. -/
theorem c10_malformed_entry_never_swept (store : List ImageHistoryItem)
    (now : Int) (entry : ImageHistoryItem) (hmem : entry ∈ store)
    (hexp : entry.expiresAt = none) :
    entry ∈ (getHistory store now).1 ∧
    entry ∈ (getHistory store now).2 ∧
    entry ∈ (clearExpiredHistory store now).2 := by
  have hval : isValidAt now entry = true := by
    simp [isValidAt, hexp]
  have hf : entry ∈ store.filter (isValidAt now) :=
    List.mem_filter.mpr ⟨hmem, hval⟩
  refine ⟨by rw [getHistory_fst]; exact hf, ?_, ?_⟩
  · have hcases : (getHistory store now).2 = store.filter (isValidAt now) ∨
        (getHistory store now).2 = store := by
      unfold getHistory
      by_cases h : (store.filter (isValidAt now)).length ≠ store.length
      · left; simp [h]
      · right; simp [h]
    rcases hcases with h | h
    · rw [h]; exact hf
    · rw [h]; exact hmem
  · show entry ∈ store.filter (isValidAt now)
    exact hf

/-- C10 witness: `malformedEntry` has no numeric `expiresAt`; even at a clock
far in the future it survives both `getHistory` and `clearExpiredHistory`. -/
theorem c10_malformed_entry_never_swept_witness :
    (malformedEntry ∈ [malformedEntry] ∧ malformedEntry.expiresAt = none) ∧
    malformedEntry ∈ (getHistory [malformedEntry] 1000000000000).1 ∧
    malformedEntry ∈ (getHistory [malformedEntry] 1000000000000).2 ∧
    malformedEntry ∈ (clearExpiredHistory [malformedEntry] 1000000000000).2 :=
  ⟨⟨List.mem_singleton.mpr rfl, rfl⟩,
    c10_malformed_entry_never_swept [malformedEntry] 1000000000000
      malformedEntry (List.mem_singleton.mpr rfl) rfl⟩

end ZImage
